import Mathlib

/-!
Verification of the user-profile synchronization rule from
`src/server/src/index.ts` (Strapi lifecycle-hook example).

The DocumentStore collaborator is modelled as a list of Profile documents
together with a counter for store-assigned document identifiers.  JavaScript
`undefined` values flowing through the handlers are modelled with `Option`.
The two calls to `Math.random()`-derived values inside `generateUsername`
are passed in as explicit numeric arguments.
-/

namespace ProfileSync

/-- A Profile document: store-assigned identifier, back-reference to a user
identifier (`none` models a record created with an `undefined` user id),
display name and biography. -/
structure Profile where
  documentId : Nat
  user : Option Nat
  fullName : String
  bio : String
deriving DecidableEq

/-- The DocumentStore's `user-profile` collection: the ordered sequence of
documents plus the next store-assigned document identifier. -/
structure Store where
  profiles : List Profile
  nextId : Nat
deriving DecidableEq

/-- The fixed adjective list of `generateUsername` (index.ts line 12). -/
def adjectives : List String :=
  ["Swift", "Brave", "Clever", "Mighty", "Silent", "Witty", "Bold", "Eager"]

/-- The fixed noun list of `generateUsername` (index.ts line 13). -/
def nouns : List String :=
  ["Tiger", "Eagle", "Shark", "Wolf", "Falcon", "Panda", "Dragon", "Hawk"]

/-- Embeds `generateUsername` (index.ts lines 11-22).  The three random
draws are passed explicitly: `adjIdx = Math.floor(Math.random() * 8)`,
`nounIdx = Math.floor(Math.random() * 8)`, and
`randomNumber = Math.floor(1000 + Math.random() * 9000)`. -/
def generateUsername (adjIdx nounIdx randomNumber : Nat) : String :=
  adjectives.getD adjIdx "" ++ nouns.getD nounIdx "" ++ toString randomNumber

/-- Embeds `checkIfUserProfileExists` (index.ts lines 29-47): a `findMany`
with an equality filter on the nested back-reference.  A `none` identifier
models `undefined` passed through; per the DocumentStore contract the
equality filter against `undefined` matches no documents, so the result is
empty. -/
def checkIfUserProfileExists (store : Store) (userId : Option Nat) : List Profile :=
  match userId with
  | none => []
  | some u => store.profiles.filter (fun p => p.user == some u)

/-- Embeds `createUserProfile` (index.ts lines 55-72): look the user id up,
return the store untouched when a profile already exists, otherwise insert
a new document carrying the back-reference, full name and bio. -/
def createUserProfile (store : Store) (userId : Option Nat) (fullName bio : String) : Store :=
  let userProfile := checkIfUserProfileExists store userId
  if userProfile.length > 0 then
    store
  else
    { profiles := store.profiles ++
        [{ documentId := store.nextId, user := userId, fullName := fullName, bio := bio }],
      nextId := store.nextId + 1 }

/-- Embeds `deleteUserProfile` (index.ts lines 78-87): look the user id up
and, when the result is non-empty, delete the document whose identifier is
the first result's `documentId` (the store removes the first document
carrying that identifier). -/
def deleteUserProfile (store : Store) (userId : Option Nat) : Store :=
  let userProfile := checkIfUserProfileExists store userId
  match userProfile with
  | [] => store
  | p :: _ =>
    { store with profiles := store.profiles.eraseP (fun q => q.documentId == p.documentId) }

/-- The `data` object of a creation event's `params` (optional fields
`fullName` and `bio`; `none` models an absent field). -/
structure EventData where
  fullName : Option String
  bio : Option String
deriving DecidableEq

/-- The `params` object of a creation event (`params?.data`). -/
structure CreateParams where
  data : Option EventData
deriving DecidableEq

/-- The `result` object of a creation event (`result.id`; `none` for `id`
models a result object without a usable identifier). -/
structure CreateResult where
  id : Option Nat
deriving DecidableEq

/-- The `afterCreate` event payload: `{ result, params }`, each possibly
`undefined`. -/
structure CreateEvent where
  result : Option CreateResult
  params : Option CreateParams
deriving DecidableEq

/-- The `where` clause of a deletion event (`params?.where?.id`). -/
structure WhereClause where
  id : Option Nat
deriving DecidableEq

/-- The `params` object of a deletion event. -/
structure DeleteParams where
  whereClause : Option WhereClause
deriving DecidableEq

/-- The `beforeDelete` event payload: `{ params }`. -/
structure DeleteEvent where
  params : Option DeleteParams
deriving DecidableEq

/-- JavaScript `x || d` applied to a possibly-`undefined` string `x`: both
`undefined` and the empty string are falsy and select the default. -/
def jsOrElse (x : Option String) (d : String) : String :=
  match x with
  | none => d
  | some s => if s = "" then d else s

/-- The error message raised by `result.id` when `result` is `undefined`. -/
def missingResultError : String :=
  "TypeError: Cannot read properties of undefined (reading id)"

/-- Embeds the `afterCreate` handler (index.ts lines 116-121).  Returns the
post-state of the store together with the raised error, if any: `fullName`
and `bio` are computed from `params?.data` with `||` defaults, then
`result.id` is read — raising a TypeError when `result` is `undefined` —
and `createUserProfile` runs.  The random draws of `generateUsername` are
passed through as arguments. -/
def afterCreate (store : Store) (ev : CreateEvent) (adjIdx nounIdx randomNumber : Nat) :
    Store × Option String :=
  let fullName := jsOrElse ((ev.params.bind CreateParams.data).bind EventData.fullName)
    (generateUsername adjIdx nounIdx randomNumber)
  let bio := jsOrElse ((ev.params.bind CreateParams.data).bind EventData.bio) "No bio yet"
  match ev.result with
  | none => (store, some missingResultError)
  | some r => (createUserProfile store r.id fullName bio, none)

/-- The identifier a deletion event carries: `params?.where?.id`. -/
def DeleteEvent.idToDelete (ev : DeleteEvent) : Option Nat :=
  (ev.params.bind DeleteParams.whereClause).bind WhereClause.id

/-- Embeds the `beforeDelete` handler (index.ts lines 128-132): extract
`params?.where?.id` and run `deleteUserProfile` on it. -/
def beforeDelete (store : Store) (ev : DeleteEvent) : Store :=
  deleteUserProfile store ev.idToDelete

/-- One lifecycle invocation: either `afterCreate` (with its event and the
three random draws) or `beforeDelete`. -/
inductive LifecycleOp where
  | create (ev : CreateEvent) (adjIdx nounIdx randomNumber : Nat)
  | delete (ev : DeleteEvent)
deriving DecidableEq

/-- Apply one lifecycle invocation to the store (an `afterCreate` that
raises still leaves the store as returned, i.e. untouched). -/
def applyOp (store : Store) : LifecycleOp → Store
  | .create ev a n k => (afterCreate store ev a n k).1
  | .delete ev => beforeDelete store ev

/-- Run a sequence of lifecycle invocations left to right. -/
def runOps (store : Store) : List LifecycleOp → Store
  | [] => store
  | op :: rest => runOps (applyOp store op) rest

/-- The profiles whose back-reference equals the user identifier `u`. -/
def profilesFor (store : Store) (u : Nat) : List Profile :=
  store.profiles.filter (fun p => p.user == some u)

/-- The at-most-one-profile-per-user invariant. -/
def Inv (store : Store) : Prop :=
  ∀ u : Nat, (profilesFor store u).length ≤ 1

/-- Well-formed store: store-assigned document identifiers are pairwise
distinct. -/
def Store.WF (store : Store) : Prop :=
  (store.profiles.map Profile.documentId).Nodup

/-- A store already holding two Profiles for user identifier 5. -/
def twoProfileStore : Store :=
  ⟨[⟨0, some 5, "A", "a"⟩, ⟨1, some 5, "B", "b"⟩], 2⟩

/-- A creation event for user identifier 5 with no supplied fields. -/
def dupCreateEvent : CreateEvent := ⟨some ⟨some 5⟩, none⟩

/-- A store holding two Profiles for user identifier 5 and one for 9. -/
def twoProfileStoreWithOther : Store :=
  ⟨[⟨0, some 5, "A", "a"⟩, ⟨1, some 9, "C", "c"⟩, ⟨2, some 5, "B", "b"⟩], 3⟩

/-- A deletion event targeting user identifier 5. -/
def delFiveEvent : DeleteEvent := ⟨some ⟨some ⟨some 5⟩⟩⟩

theorem check_some (store : Store) (u : Nat) :
    checkIfUserProfileExists store (some u) = profilesFor store u := rfl

theorem createUserProfile_of_exists (store : Store) (uid : Option Nat) (fn b : String)
    (h : checkIfUserProfileExists store uid ≠ []) :
    createUserProfile store uid fn b = store := by
  unfold createUserProfile
  simp only [if_pos (List.length_pos.mpr h)]

theorem createUserProfile_of_not_exists (store : Store) (uid : Option Nat) (fn b : String)
    (h : checkIfUserProfileExists store uid = []) :
    createUserProfile store uid fn b =
      { profiles := store.profiles ++
          [{ documentId := store.nextId, user := uid, fullName := fn, bio := b }],
        nextId := store.nextId + 1 } := by
  unfold createUserProfile
  simp [h]

theorem filter_user_append_single (l : List Profile) (p : Profile) (u : Nat) :
    (l ++ [p]).filter (fun q => q.user == some u) =
      l.filter (fun q => q.user == some u) ++ (if p.user == some u then [p] else []) := by
  simp only [List.filter_append]
  congr 1
  by_cases h : p.user == some u
  · simp [List.filter, h]
  · simp [List.filter, h]

theorem inv_createUserProfile (store : Store) (uid : Option Nat) (fn b : String)
    (h : Inv store) : Inv (createUserProfile store uid fn b) := by
  cases hck : checkIfUserProfileExists store uid with
  | cons p rest =>
      rw [createUserProfile_of_exists store uid fn b (by simp [hck])]
      exact h
  | nil =>
      rw [createUserProfile_of_not_exists store uid fn b hck]
      intro u
      simp only [profilesFor] at h ⊢
      rw [filter_user_append_single]
      cases huid : uid with
      | none => simpa using h u
      | some u0 =>
          by_cases hu : u0 = u
          · subst hu
            have hempty : store.profiles.filter (fun q => q.user == some u0) = [] := by
              have := hck
              rw [huid, check_some] at this
              simpa [profilesFor] using this
            simp [hempty]
          · have hne : ((some u0 : Option Nat) == some u) = false := by simp [hu]
            simpa [hne] using h u

theorem deleteUserProfile_sublist (store : Store) (uid : Option Nat) :
    (deleteUserProfile store uid).profiles.Sublist store.profiles := by
  unfold deleteUserProfile
  cases h : checkIfUserProfileExists store uid with
  | nil => simp
  | cons p rest => exact List.eraseP_sublist _

theorem inv_deleteUserProfile (store : Store) (uid : Option Nat)
    (h : Inv store) : Inv (deleteUserProfile store uid) := by
  intro u
  have hs := List.Sublist.filter (fun p => p.user == some u)
    (deleteUserProfile_sublist store uid)
  exact le_trans hs.length_le (h u)

theorem inv_afterCreate (store : Store) (ev : CreateEvent) (a n k : Nat)
    (h : Inv store) : Inv (afterCreate store ev a n k).1 := by
  unfold afterCreate
  cases ev.result with
  | none => exact h
  | some r => exact inv_createUserProfile store r.id _ _ h

theorem inv_beforeDelete (store : Store) (ev : DeleteEvent)
    (h : Inv store) : Inv (beforeDelete store ev) :=
  inv_deleteUserProfile store ev.idToDelete h

/-- C1: starting from a store with at most one Profile per User identifier,
every sequential run of `afterCreate` and `beforeDelete` invocations
preserves that invariant. -/
theorem runOps_preserves_inv (store : Store) (ops : List LifecycleOp)
    (h : Inv store) : Inv (runOps store ops) := by
  induction ops generalizing store with
  | nil => exact h
  | cons op rest ih =>
      cases op with
      | create ev a n k => exact ih _ (inv_afterCreate store ev a n k h)
      | delete ev => exact ih _ (inv_beforeDelete store ev h)

/-- C1 witness: the invariant holds after a concrete create-create-delete
run from the empty store. -/
theorem runOps_preserves_inv_witness :
    Inv (runOps ⟨[], 0⟩
      [.create ⟨some ⟨some 7⟩, none⟩ 2 3 1234,
       .create ⟨some ⟨some 7⟩, none⟩ 4 5 2000,
       .delete ⟨some ⟨some ⟨some 7⟩⟩⟩]) :=
  runOps_preserves_inv ⟨[], 0⟩ _ (by intro u; simp [profilesFor])

theorem afterCreate_result_some (store : Store) (ev : CreateEvent) (a n k : Nat)
    (r : CreateResult) (hres : ev.result = some r) :
    afterCreate store ev a n k =
      (createUserProfile store r.id
        (jsOrElse ((ev.params.bind CreateParams.data).bind EventData.fullName)
          (generateUsername a n k))
        (jsOrElse ((ev.params.bind CreateParams.data).bind EventData.bio) "No bio yet"),
       none) := by
  unfold afterCreate
  rw [hres]

theorem length_profilesFor_createUserProfile_self (store : Store) (u : Nat) (fn b : String)
    (hatmost : (profilesFor store u).length ≤ 1) :
    (profilesFor (createUserProfile store (some u) fn b) u).length = 1 := by
  cases hck : checkIfUserProfileExists store (some u) with
  | nil =>
      rw [createUserProfile_of_not_exists store (some u) fn b hck]
      have hempty : store.profiles.filter (fun q => q.user == some u) = [] := by
        rw [check_some] at hck
        simpa [profilesFor] using hck
      simp only [profilesFor]
      rw [filter_user_append_single]
      simp [hempty]
  | cons p rest =>
      rw [createUserProfile_of_exists store (some u) fn b (by simp [hck])]
      rw [check_some] at hck
      have hge : 1 ≤ (profilesFor store u).length := by
        rw [hck]; simp
      omega

theorem createUserProfile_of_nonempty_profilesFor (store : Store) (u : Nat) (fn b : String)
    (hpos : (profilesFor store u).length ≠ 0) :
    createUserProfile store (some u) fn b = store := by
  apply createUserProfile_of_exists
  rw [check_some]
  intro hnil
  exact hpos (by rw [hnil]; rfl)

/-- C2 (amended): for a creation event carrying user identifier `u`, if the
starting store holds at most one Profile for `u`, then running `afterCreate`
twice leaves exactly one Profile for `u`, and the second invocation is a
no-op (it returns the store produced by the first unchanged, whatever its
random draws). -/
theorem afterCreate_idempotent (store : Store) (ev : CreateEvent) (r : CreateResult)
    (u a n k a' n' k' : Nat)
    (hres : ev.result = some r) (hid : r.id = some u)
    (hatmost : (profilesFor store u).length ≤ 1) :
    (profilesFor (afterCreate (afterCreate store ev a n k).1 ev a' n' k').1 u).length = 1 ∧
    (afterCreate (afterCreate store ev a n k).1 ev a' n' k').1 = (afterCreate store ev a n k).1 := by
  rw [afterCreate_result_some store ev a n k r hres, hid]
  set s1 := createUserProfile store (some u)
    (jsOrElse ((ev.params.bind CreateParams.data).bind EventData.fullName)
      (generateUsername a n k))
    (jsOrElse ((ev.params.bind CreateParams.data).bind EventData.bio) "No bio yet") with hs1
  have hone : (profilesFor s1 u).length = 1 :=
    length_profilesFor_createUserProfile_self store u _ _ hatmost
  rw [afterCreate_result_some s1 ev a' n' k' r hres, hid]
  have hnoop : createUserProfile s1 (some u)
      (jsOrElse ((ev.params.bind CreateParams.data).bind EventData.fullName)
        (generateUsername a' n' k'))
      (jsOrElse ((ev.params.bind CreateParams.data).bind EventData.bio) "No bio yet") = s1 :=
    createUserProfile_of_nonempty_profilesFor s1 u _ _ (by omega)
  exact ⟨by rw [hnoop]; exact hone, by rw [hnoop]⟩

/-- C2 witness: the amended idempotence at a concrete event and the empty
store. -/
theorem afterCreate_idempotent_witness :
    (profilesFor (afterCreate (afterCreate ⟨[], 0⟩ ⟨some ⟨some 7⟩, none⟩ 2 3 1234).1
        ⟨some ⟨some 7⟩, none⟩ 4 5 2000).1 7).length = 1 ∧
    (afterCreate (afterCreate ⟨[], 0⟩ ⟨some ⟨some 7⟩, none⟩ 2 3 1234).1
        ⟨some ⟨some 7⟩, none⟩ 4 5 2000).1 = (afterCreate ⟨[], 0⟩ ⟨some ⟨some 7⟩, none⟩ 2 3 1234).1 :=
  afterCreate_idempotent ⟨[], 0⟩ ⟨some ⟨some 7⟩, none⟩ ⟨some 7⟩ 7 2 3 1234 4 5 2000
    rfl rfl (by simp [profilesFor])

/-- C2 counterexample: from a starting store that already holds two Profiles
for identifier 5, two `afterCreate` invocations do not leave exactly one
Profile for that identifier — the universally quantified claim over every
starting store fails. -/
theorem afterCreate_idempotent_counterexample :
    ¬ ((profilesFor (afterCreate (afterCreate twoProfileStore dupCreateEvent 0 0 1000).1
        dupCreateEvent 0 0 1000).1 5).length = 1) := by
  decide

/-- C3: for a creation event carrying user identifier `u`, the handler
completes without error; if no Profile for `u` existed, exactly one exists
afterwards; if one existed, the store is returned unchanged; and the
profile collection is either unchanged or extended by exactly one inserted
document (no other mutation). -/
theorem afterCreate_postcondition (store : Store) (ev : CreateEvent) (r : CreateResult)
    (u a n k : Nat) (hres : ev.result = some r) (hid : r.id = some u) :
    (afterCreate store ev a n k).2 = none ∧
    ((profilesFor store u).length = 0 →
      (profilesFor (afterCreate store ev a n k).1 u).length = 1) ∧
    (0 < (profilesFor store u).length → (afterCreate store ev a n k).1 = store) ∧
    ((afterCreate store ev a n k).1.profiles = store.profiles ∨
      ∃ p : Profile, (afterCreate store ev a n k).1.profiles = store.profiles ++ [p]) := by
  rw [afterCreate_result_some store ev a n k r hres, hid]
  refine ⟨rfl, ?_, ?_, ?_⟩
  · intro hzero
    exact length_profilesFor_createUserProfile_self store u _ _ (by omega)
  · intro hpos
    exact createUserProfile_of_nonempty_profilesFor store u _ _ (by omega)
  · cases hck : checkIfUserProfileExists store (some u) with
    | nil =>
        right
        rw [createUserProfile_of_not_exists store (some u) _ _ hck]
        exact ⟨_, rfl⟩
    | cons p rest =>
        left
        rw [createUserProfile_of_exists store (some u) _ _ (by simp [hck])]

/-- C3 witness: the postcondition at a concrete event over the empty
store. -/
theorem afterCreate_postcondition_witness :
    ((afterCreate ⟨[], 0⟩ ⟨some ⟨some 42⟩, some ⟨some ⟨some "Ada", some "M"⟩⟩⟩ 0 0 1000).2 = none ∧
    ((profilesFor (⟨[], 0⟩ : Store) 42).length = 0 →
      (profilesFor (afterCreate ⟨[], 0⟩
        ⟨some ⟨some 42⟩, some ⟨some ⟨some "Ada", some "M"⟩⟩⟩ 0 0 1000).1 42).length = 1) ∧
    (0 < (profilesFor (⟨[], 0⟩ : Store) 42).length →
      (afterCreate ⟨[], 0⟩ ⟨some ⟨some 42⟩, some ⟨some ⟨some "Ada", some "M"⟩⟩⟩ 0 0 1000).1 = ⟨[], 0⟩) ∧
    ((afterCreate ⟨[], 0⟩
        ⟨some ⟨some 42⟩, some ⟨some ⟨some "Ada", some "M"⟩⟩⟩ 0 0 1000).1.profiles =
        (⟨[], 0⟩ : Store).profiles ∨
      ∃ p : Profile, (afterCreate ⟨[], 0⟩
        ⟨some ⟨some 42⟩, some ⟨some ⟨some "Ada", some "M"⟩⟩⟩ 0 0 1000).1.profiles =
        (⟨[], 0⟩ : Store).profiles ++ [p])) :=
  afterCreate_postcondition ⟨[], 0⟩ ⟨some ⟨some 42⟩, some ⟨some ⟨some "Ada", some "M"⟩⟩⟩
    ⟨some 42⟩ 42 0 0 1000 rfl rfl

theorem adjectives_getD_mem (a : Nat) (ha : a < 8) : adjectives.getD a "" ∈ adjectives := by
  interval_cases a <;> decide

theorem nouns_getD_mem (n : Nat) (hn : n < 8) : nouns.getD n "" ∈ nouns := by
  interval_cases n <;> decide

/-- C4: for a creation event supplying neither display-name nor biography,
when no Profile yet exists for the event's user identifier, the handler
appends exactly one Profile whose display name is the concatenation of an
adjective from the fixed 8-element list, a noun from the fixed 8-element
list and the decimal digits of a number in 1000–9999, and whose biography
is the fixed placeholder "No bio yet" (the random draws of
`generateUsername` range over exactly those bounds). -/
theorem afterCreate_default_generation (store : Store) (ev : CreateEvent) (r : CreateResult)
    (a n k : Nat) (hres : ev.result = some r)
    (hname : (ev.params.bind CreateParams.data).bind EventData.fullName = none)
    (hbio : (ev.params.bind CreateParams.data).bind EventData.bio = none)
    (ha : a < 8) (hn : n < 8) (hk1 : 1000 ≤ k) (hk2 : k ≤ 9999)
    (hnew : checkIfUserProfileExists store r.id = []) :
    ∃ p : Profile, (afterCreate store ev a n k).1.profiles = store.profiles ++ [p] ∧
      p.bio = "No bio yet" ∧
      ∃ adj ∈ adjectives, ∃ noun ∈ nouns, ∃ num : Nat,
        1000 ≤ num ∧ num ≤ 9999 ∧ p.fullName = adj ++ noun ++ toString num := by
  rw [afterCreate_result_some store ev a n k r hres]
  rw [createUserProfile_of_not_exists store r.id _ _ hnew]
  refine ⟨_, rfl, ?_, ?_⟩
  · simp [jsOrElse, hbio]
  · refine ⟨adjectives.getD a "", adjectives_getD_mem a ha,
      nouns.getD n "", nouns_getD_mem n hn, k, hk1, hk2, ?_⟩
    simp [jsOrElse, hname, generateUsername, String.append_assoc]

/-- C4 witness: the default-generation shape at a concrete event, empty
store and concrete random draws. -/
theorem afterCreate_default_generation_witness :
    ∃ p : Profile,
      (afterCreate ⟨[], 0⟩ ⟨some ⟨some 7⟩, some ⟨some ⟨none, none⟩⟩⟩ 2 3 1234).1.profiles =
        (⟨[], 0⟩ : Store).profiles ++ [p] ∧
      p.bio = "No bio yet" ∧
      ∃ adj ∈ adjectives, ∃ noun ∈ nouns, ∃ num : Nat,
        1000 ≤ num ∧ num ≤ 9999 ∧ p.fullName = adj ++ noun ++ toString num :=
  afterCreate_default_generation ⟨[], 0⟩ ⟨some ⟨some 7⟩, some ⟨some ⟨none, none⟩⟩⟩ ⟨some 7⟩
    2 3 1234 rfl rfl rfl (by decide) (by decide) (by decide) (by decide) rfl

/-- C5: for a creation event supplying a non-empty display-name and a
non-empty biography, when no Profile yet exists for the event's user
identifier `u`, the handler appends exactly one Profile carrying the
supplied values verbatim together with the back-reference `u`. -/
theorem afterCreate_verbatim (store : Store) (ev : CreateEvent) (r : CreateResult)
    (u a n k : Nat) (fn b : String)
    (hres : ev.result = some r) (hid : r.id = some u)
    (hname : (ev.params.bind CreateParams.data).bind EventData.fullName = some fn)
    (hfn : fn ≠ "")
    (hbio : (ev.params.bind CreateParams.data).bind EventData.bio = some b)
    (hb : b ≠ "")
    (hnew : profilesFor store u = []) :
    (afterCreate store ev a n k).1.profiles =
      store.profiles ++ [⟨store.nextId, some u, fn, b⟩] := by
  rw [afterCreate_result_some store ev a n k r hres, hid]
  rw [createUserProfile_of_not_exists store (some u) _ _ (by rw [check_some]; exact hnew)]
  simp [jsOrElse, hname, hbio, hfn, hb]

/-- C5 witness: Scenario A — creating user 42 with supplied full name and
bio yields exactly that Profile. -/
theorem afterCreate_verbatim_witness :
    (afterCreate ⟨[], 0⟩
      ⟨some ⟨some 42⟩, some ⟨some ⟨some "Ada Lovelace", some "Mathematician"⟩⟩⟩ 0 0 1000).1.profiles =
      (⟨[], 0⟩ : Store).profiles ++ [⟨(⟨[], 0⟩ : Store).nextId, some 42, "Ada Lovelace", "Mathematician"⟩] :=
  afterCreate_verbatim ⟨[], 0⟩
    ⟨some ⟨some 42⟩, some ⟨some ⟨some "Ada Lovelace", some "Mathematician"⟩⟩⟩ ⟨some 42⟩
    42 0 0 1000 "Ada Lovelace" "Mathematician" rfl rfl rfl (by decide) rfl (by decide) rfl

theorem eraseP_first_filter_decomp (l : List Profile) (P : Profile → Bool)
    (p : Profile) (rest : List Profile)
    (hnd : (l.map Profile.documentId).Nodup) (hf : l.filter P = p :: rest) :
    ∃ l₁ l₂, l = l₁ ++ p :: l₂ ∧
      l.eraseP (fun q => q.documentId == p.documentId) = l₁ ++ l₂ ∧
      l₁.filter P = [] ∧ l₂.filter P = rest := by
  induction l generalizing rest with
  | nil => simp at hf
  | cons x t ih =>
      rw [List.map_cons, List.nodup_cons] at hnd
      obtain ⟨hx, hndt⟩ := hnd
      by_cases hPx : P x
      · rw [List.filter_cons_of_pos hPx] at hf
        obtain ⟨hxp, hrest⟩ := List.cons.inj hf
        subst hxp
        refine ⟨[], t, by simp, ?_, rfl, hrest⟩
        rw [List.eraseP_cons_of_pos]
        · simp
        · simp
      · rw [List.filter_cons_of_neg hPx] at hf
        obtain ⟨l₁, l₂, hdec, herase, hf₁, hf₂⟩ := ih rest hndt hf
        have hpt : p ∈ t := by rw [hdec]; exact List.mem_append_right _ (List.mem_cons_self _ _)
        have hxid : (x.documentId == p.documentId) = false := by
          have : p.documentId ∈ t.map Profile.documentId := List.mem_map_of_mem _ hpt
          have hne : x.documentId ≠ p.documentId := fun he => hx (he ▸ this)
          simp [hne]
        refine ⟨x :: l₁, l₂, by rw [hdec]; rfl, ?_, ?_, hf₂⟩
        · rw [List.eraseP_cons_of_neg (by simp [hxid]), herase, List.cons_append]
        · rw [List.filter_cons_of_neg hPx, hf₁]

theorem beforeDelete_of_nonempty (store : Store) (ev : DeleteEvent) (u : Nat)
    (p : Profile) (rest : List Profile)
    (hid : ev.idToDelete = some u) (hf : profilesFor store u = p :: rest) :
    (beforeDelete store ev).profiles =
      store.profiles.eraseP (fun q => q.documentId == p.documentId) := by
  unfold beforeDelete deleteUserProfile
  rw [hid, check_some, hf]

theorem beforeDelete_of_empty_check (store : Store) (ev : DeleteEvent)
    (h : checkIfUserProfileExists store ev.idToDelete = []) :
    beforeDelete store ev = store := by
  unfold beforeDelete deleteUserProfile
  rw [h]

/-- C6: for a deletion event carrying user identifier `u`, if the
well-formed store (distinct document identifiers) holds at most one Profile
for `u`, then after `beforeDelete` no Profile referencing `u` remains. -/
theorem beforeDelete_postcondition (store : Store) (ev : DeleteEvent) (u : Nat)
    (hwf : store.WF) (hid : ev.idToDelete = some u)
    (hatmost : (profilesFor store u).length ≤ 1) :
    profilesFor (beforeDelete store ev) u = [] := by
  cases hf : profilesFor store u with
  | nil =>
      rw [beforeDelete_of_empty_check store ev (by rw [hid, check_some]; exact hf)]
      exact hf
  | cons p rest =>
      have hrest : rest = [] := by
        rw [hf] at hatmost
        simpa using List.length_eq_zero.mp (by simpa using hatmost)
      subst hrest
      have hdec := eraseP_first_filter_decomp store.profiles
        (fun q => q.user == some u) p [] hwf hf
      obtain ⟨l₁, l₂, _, herase, hf₁, hf₂⟩ := hdec
      show (beforeDelete store ev).profiles.filter (fun q => q.user == some u) = []
      rw [beforeDelete_of_nonempty store ev u p [] hid hf, herase,
        List.filter_append, hf₁, hf₂]
      rfl

/-- C6 witness: Scenario D — deleting user 42 when its single Profile
exists leaves no Profile for 42. -/
theorem beforeDelete_postcondition_witness :
    profilesFor (beforeDelete ⟨[⟨0, some 42, "A", "b"⟩], 1⟩ ⟨some ⟨some ⟨some 42⟩⟩⟩) 42 = [] :=
  beforeDelete_postcondition ⟨[⟨0, some 42, "A", "b"⟩], 1⟩ ⟨some ⟨some ⟨some 42⟩⟩⟩ 42
    (by unfold Store.WF; decide) rfl (by decide)

/-- C7: for a deletion event whose payload lacks a usable identifier
(`params?.where?.id` is `undefined`), the lookup yields the empty result
set and the handler completes without mutating the store. -/
theorem beforeDelete_missing_identifier (store : Store) (ev : DeleteEvent)
    (h : ev.idToDelete = none) :
    checkIfUserProfileExists store ev.idToDelete = [] ∧ beforeDelete store ev = store := by
  refine ⟨by rw [h]; rfl, ?_⟩
  exact beforeDelete_of_empty_check store ev (by rw [h]; rfl)

/-- C7 witness: a deletion event with a `params` object but no `where`
clause leaves a concrete one-profile store untouched. -/
theorem beforeDelete_missing_identifier_witness :
    checkIfUserProfileExists ⟨[⟨0, some 42, "A", "b"⟩], 1⟩
      (DeleteEvent.idToDelete ⟨some ⟨none⟩⟩) = [] ∧
    beforeDelete ⟨[⟨0, some 42, "A", "b"⟩], 1⟩ ⟨some ⟨none⟩⟩ = ⟨[⟨0, some 42, "A", "b"⟩], 1⟩ :=
  beforeDelete_missing_identifier ⟨[⟨0, some 42, "A", "b"⟩], 1⟩ ⟨some ⟨none⟩⟩ rfl

/-- C8: for a deletion event carrying user identifier `u`, when no Profile
references `u`, the handler performs no store mutation at all — the whole
store, in particular the Profile collection, is returned unchanged. -/
theorem beforeDelete_no_profile_noop (store : Store) (ev : DeleteEvent) (u : Nat)
    (hid : ev.idToDelete = some u) (hnone : profilesFor store u = []) :
    beforeDelete store ev = store :=
  beforeDelete_of_empty_check store ev (by rw [hid, check_some]; exact hnone)

/-- C8 witness: Scenario E — deleting user 99 when no Profile exists for it
leaves a concrete store unchanged. -/
theorem beforeDelete_no_profile_noop_witness :
    beforeDelete ⟨[⟨0, some 42, "A", "b"⟩], 1⟩ ⟨some ⟨some ⟨some 99⟩⟩⟩ =
      ⟨[⟨0, some 42, "A", "b"⟩], 1⟩ :=
  beforeDelete_no_profile_noop ⟨[⟨0, some 42, "A", "b"⟩], 1⟩ ⟨some ⟨some ⟨some 99⟩⟩⟩ 99
    rfl (by decide)

/-- C9: for a deletion event carrying user identifier `u` over a
well-formed store holding two or more Profiles for `u`, the handler removes
exactly the first Profile of the lookup's result sequence: afterwards the
Profiles referencing `u` are exactly the tail of the original result
sequence, every one of which is still in the store, and every document not
referencing `u` also remains. -/
theorem beforeDelete_multiple_matches (store : Store) (ev : DeleteEvent) (u : Nat)
    (hwf : store.WF) (hid : ev.idToDelete = some u)
    (hmulti : 2 ≤ (profilesFor store u).length) :
    profilesFor (beforeDelete store ev) u = (profilesFor store u).tail ∧
    (∀ q ∈ (profilesFor store u).tail, q ∈ (beforeDelete store ev).profiles) ∧
    (∀ q ∈ store.profiles, q.user ≠ some u → q ∈ (beforeDelete store ev).profiles) := by
  cases hf : profilesFor store u with
  | nil => rw [hf] at hmulti; simp at hmulti
  | cons p rest =>
      obtain ⟨l₁, l₂, hdecomp, herase, hf₁, hf₂⟩ := eraseP_first_filter_decomp store.profiles
        (fun q => q.user == some u) p rest hwf hf
      have hprofiles : (beforeDelete store ev).profiles = l₁ ++ l₂ := by
        rw [beforeDelete_of_nonempty store ev u p rest hid hf, herase]
      have hfilter : profilesFor (beforeDelete store ev) u = rest := by
        show (beforeDelete store ev).profiles.filter (fun q => q.user == some u) = rest
        rw [hprofiles, List.filter_append, hf₁, hf₂]
        rfl
      refine ⟨by simp only [hf, List.tail_cons]; exact hfilter, ?_, ?_⟩
      · intro q hq
        have : q ∈ profilesFor (beforeDelete store ev) u := by
          rw [hfilter, hf] at *; exact hq
        exact List.mem_of_mem_filter this
      · intro q hq hqu
        rw [hprofiles]
        rw [hdecomp] at hq
        rcases List.mem_append.mp hq with h₁ | h₂
        · exact List.mem_append_left _ h₁
        · rcases List.mem_cons.mp h₂ with hqp | h₂'
          · exfalso
            apply hqu
            have hp_mem : p ∈ profilesFor store u := by rw [hf]; exact List.mem_cons_self _ _
            have := List.of_mem_filter hp_mem
            rw [← hqp] at this
            simpa using this
          · exact List.mem_append_right _ h₂'

/-- C9 witness: deleting user 5 from a well-formed store with two Profiles
for 5 removes only the first and keeps the second and an unrelated
document. -/
theorem beforeDelete_multiple_matches_witness :
    profilesFor (beforeDelete twoProfileStoreWithOther delFiveEvent) 5 =
      (profilesFor twoProfileStoreWithOther 5).tail ∧
    (∀ q ∈ (profilesFor twoProfileStoreWithOther 5).tail,
      q ∈ (beforeDelete twoProfileStoreWithOther delFiveEvent).profiles) ∧
    (∀ q ∈ twoProfileStoreWithOther.profiles, q.user ≠ some 5 →
      q ∈ (beforeDelete twoProfileStoreWithOther delFiveEvent).profiles) :=
  beforeDelete_multiple_matches twoProfileStoreWithOther delFiveEvent 5
    (by unfold Store.WF; decide) rfl (by decide)

/-- C10: a creation event without a `result` object makes the handler raise
the `result.id` TypeError before any store operation, returning the store
unchanged; a `result` object alone suffices for error-free completion —
missing `params` or `data` fields are absorbed by the optional-chaining
defaults. -/
theorem afterCreate_unguarded_result (store : Store) (ev : CreateEvent) (a n k : Nat) :
    (ev.result = none → afterCreate store ev a n k = (store, some missingResultError)) ∧
    (∀ r : CreateResult, ev.result = some r → (afterCreate store ev a n k).2 = none) := by
  constructor
  · intro h
    unfold afterCreate
    rw [h]
  · intro r h
    rw [afterCreate_result_some store ev a n k r h]

/-- C10 witness: a result-less event errors and leaves a concrete store
unchanged, while an event with only a result (no params at all) completes
without error. -/
theorem afterCreate_unguarded_result_witness :
    afterCreate ⟨[⟨0, some 42, "A", "b"⟩], 1⟩ ⟨none, some ⟨some ⟨some "X", some "Y"⟩⟩⟩ 0 0 1000 =
      (⟨[⟨0, some 42, "A", "b"⟩], 1⟩, some missingResultError) ∧
    (afterCreate ⟨[⟨0, some 42, "A", "b"⟩], 1⟩ ⟨some ⟨some 7⟩, none⟩ 0 0 1000).2 = none :=
  ⟨(afterCreate_unguarded_result ⟨[⟨0, some 42, "A", "b"⟩], 1⟩
      ⟨none, some ⟨some ⟨some "X", some "Y"⟩⟩⟩ 0 0 1000).1 rfl,
   (afterCreate_unguarded_result ⟨[⟨0, some 42, "A", "b"⟩], 1⟩
      ⟨some ⟨some 7⟩, none⟩ 0 0 1000).2 ⟨some 7⟩ rfl⟩

end ProfileSync
